import Mathlib

/-!
Verification of the in-memory todo CRUD service
(`src/examples/dockerfiles/todos-api-flask/app.py`).

The store is a Python dict `todos : Dict[int, Dict]` together with a
counter `next_id : int`, and every handler may read the wall clock via
`datetime.utcnow()`.  We embed the store as an association list kept in
insertion order (Python dicts preserve insertion order and have unique
keys), the counter as a `Nat`, and the clock as an oracle
`clock : Nat → Nat` together with a read counter `tick`: the n-th call of
`utcnow()` during the process lifetime returns `clock n`.  Timestamps are
abstract `Nat` instants.  Request bodies are modelled as JSON objects
restricted to the three fields the handlers inspect; a key absent from the
object is `none`.  Responses are a status code paired with a body drawn
from the shapes the handlers actually produce.
-/

namespace TodoApi

/-- A stored todo record, mirroring the dict literal built in `create_todo`
(`app.py` lines 173-180). -/
structure Todo where
  id : Nat
  title : String
  description : String
  completed : Bool
  created_at : Nat
  updated_at : Nat
  deriving Repr, DecidableEq

/-- A JSON request body, restricted to the keys the handlers read.
`none` models the key being absent from the object. -/
structure ReqBody where
  title : Option String
  description : Option String
  completed : Option Bool
  deriving Repr, DecidableEq

/-- Response bodies produced by the handlers. -/
inductive RespBody where
  | err (msg : String)
  | todoItem (t : Todo)
  | todoList (ts : List Todo) (count : Nat)
  | deleted (msg : String) (t : Todo)
  deriving Repr, DecidableEq

/-- The process state: the `todos` dict (insertion-ordered association
list), the `next_id` counter, and the clock oracle with its read count. -/
structure AppState where
  todos : List (Nat × Todo)
  next_id : Nat
  clock : Nat → Nat
  tick : Nat

/-- `todo_id in todos` / `todos[todo_id]`: first (and, for genuine dict
states, only) binding of the key. -/
def dictLookup : List (Nat × Todo) → Nat → Option Todo
  | [], _ => none
  | p :: rest, k => if p.1 = k then some p.2 else dictLookup rest k

/-- `todos[todo_id] = v`: replace the binding in place if the key is
present, otherwise append it (Python dicts keep insertion order). -/
def dictInsert : List (Nat × Todo) → Nat → Todo → List (Nat × Todo)
  | [], k, v => [(k, v)]
  | p :: rest, k, v => if p.1 = k then (k, v) :: rest else p :: dictInsert rest k v

/-- `todos.pop(todo_id)`: drop every binding of the key (for genuine dict
states there is exactly one). -/
def dictRemove (l : List (Nat × Todo)) (k : Nat) : List (Nat × Todo) :=
  l.filter fun p => p.1 ≠ k

/-- One `datetime.utcnow()` call: read the oracle and advance the read
counter. -/
def utcnow (s : AppState) : Nat × AppState :=
  (s.clock s.tick, { s with tick := s.tick + 1 })

/-- `GET /todos` (`get_todos`, lines 138-143): all todos plus their
count, always 200. -/
def get_todos (s : AppState) : (Nat × RespBody) × AppState :=
  let todos_list := s.todos.map Prod.snd
  ((200, RespBody.todoList todos_list todos_list.length), s)

/-- `GET /todos/<id>` (`get_todo`, lines 145-154). -/
def get_todo (s : AppState) (todo_id : Nat) : (Nat × RespBody) × AppState :=
  match dictLookup s.todos todo_id with
  | none =>
      ((404, RespBody.err ("Todo with id " ++ toString todo_id ++ " not found")), s)
  | some todo => ((200, RespBody.todoItem todo), s)

/-- `POST /todos` (`create_todo`, lines 156-187).  The content-type check
comes first; `not data or 'title' not in data` holds exactly when the
`title` key is absent (an empty body has no `title` key).  The record's
two timestamps come from two separate `utcnow()` calls. -/
def create_todo (s : AppState) (is_json : Bool) (data : ReqBody) :
    (Nat × RespBody) × AppState :=
  if !is_json then
    ((400, RespBody.err "Content-Type must be application/json"), s)
  else
    match data.title with
    | none => ((400, RespBody.err "Missing required field: title"), s)
    | some ttl =>
      let r1 := utcnow s
      let r2 := utcnow r1.2
      let s2 := r2.2
      let todo : Todo :=
        { id := s2.next_id
          title := ttl
          description := data.description.getD ""
          completed := data.completed.getD false
          created_at := r1.1
          updated_at := r2.1 }
      ((201, RespBody.todoItem todo),
        { s2 with
          todos := dictInsert s2.todos s2.next_id todo
          next_id := s2.next_id + 1 })

/-- `PUT /todos/<id>` (`update_todo`, lines 189-215): 404 before the
content-type check; then each of the three keys overwrites its field only
when present, and `updated_at` is stamped from one `utcnow()` call. -/
def update_todo (s : AppState) (todo_id : Nat) (is_json : Bool) (data : ReqBody) :
    (Nat × RespBody) × AppState :=
  match dictLookup s.todos todo_id with
  | none =>
      ((404, RespBody.err ("Todo with id " ++ toString todo_id ++ " not found")), s)
  | some old =>
    if !is_json then
      ((400, RespBody.err "Content-Type must be application/json"), s)
    else
      let r := utcnow s
      let upd : Todo :=
        { old with
          title := data.title.getD old.title
          description := data.description.getD old.description
          completed := data.completed.getD old.completed
          updated_at := r.1 }
      ((200, RespBody.todoItem upd),
        { r.2 with todos := dictInsert r.2.todos todo_id upd })

/-- `PATCH /todos/<id>` (`patch_todo`, lines 217-243): transcribed from
its own handler body, which only differs from `update_todo` in log
operation names. -/
def patch_todo (s : AppState) (todo_id : Nat) (is_json : Bool) (data : ReqBody) :
    (Nat × RespBody) × AppState :=
  match dictLookup s.todos todo_id with
  | none =>
      ((404, RespBody.err ("Todo with id " ++ toString todo_id ++ " not found")), s)
  | some old =>
    if !is_json then
      ((400, RespBody.err "Content-Type must be application/json"), s)
    else
      let r := utcnow s
      let upd : Todo :=
        { old with
          title := data.title.getD old.title
          description := data.description.getD old.description
          completed := data.completed.getD old.completed
          updated_at := r.1 }
      ((200, RespBody.todoItem upd),
        { r.2 with todos := dictInsert r.2.todos todo_id upd })

/-- `DELETE /todos/<id>` (`delete_todo`, lines 245-255). -/
def delete_todo (s : AppState) (todo_id : Nat) : (Nat × RespBody) × AppState :=
  match dictLookup s.todos todo_id with
  | none =>
      ((404, RespBody.err ("Todo with id " ++ toString todo_id ++ " not found")), s)
  | some deleted =>
      ((200, RespBody.deleted "Todo deleted successfully" deleted),
        { s with todos := dictRemove s.todos todo_id })

/-- One request against the CRUD store. -/
inductive Op where
  | createOp (is_json : Bool) (data : ReqBody)
  | updateOp (todo_id : Nat) (is_json : Bool) (data : ReqBody)
  | patchOp (todo_id : Nat) (is_json : Bool) (data : ReqBody)
  | getOp (todo_id : Nat)
  | listOp
  | deleteOp (todo_id : Nat)
  deriving Repr

/-- Dispatch one request to its handler. -/
def stepOp (s : AppState) : Op → (Nat × RespBody) × AppState
  | .createOp j d => create_todo s j d
  | .updateOp i j d => update_todo s i j d
  | .patchOp i j d => patch_todo s i j d
  | .getOp i => get_todo s i
  | .listOp => get_todos s
  | .deleteOp i => delete_todo s i

/-- Run a sequence of requests, keeping the final state. -/
def runOps (s : AppState) : List Op → AppState
  | [] => s
  | op :: rest => runOps (stepOp s op).2 rest

/-- The state at process start: empty dict, `next_id = 1`, no clock reads
yet (`app.py` lines 65-66). -/
def initState (clock : Nat → Nat) : AppState :=
  { todos := [], next_id := 1, clock := clock, tick := 0 }

/-- The IDs a create response exposes: a 201 response carries exactly the
freshly created record. -/
def createdIdOf (r : Nat × RespBody) : List Nat :=
  if r.1 = 201 then
    match r.2 with
    | RespBody.todoItem t => [t.id]
    | _ => []
  else []

/-- A delete response is the only one carrying a `deleted` body. -/
def deletedCountOf (r : Nat × RespBody) : Nat :=
  match r.2 with
  | RespBody.deleted _ _ => 1
  | _ => 0

/-- IDs returned by the successful creates along a run, in order. -/
def createdIds (s : AppState) : List Op → List Nat
  | [] => []
  | op :: rest => createdIdOf (stepOp s op).1 ++ createdIds (stepOp s op).2 rest

/-- Number of successful creates (201 responses) along a run. -/
def opsCreates (s : AppState) : List Op → Nat
  | [] => 0
  | op :: rest =>
    (if (stepOp s op).1.1 = 201 then 1 else 0) + opsCreates (stepOp s op).2 rest

/-- Number of successful deletes (responses carrying the deleted record)
along a run. -/
def opsDeletes (s : AppState) : List Op → Nat
  | [] => 0
  | op :: rest => deletedCountOf (stepOp s op).1 + opsDeletes (stepOp s op).2 rest

/-! ### Dictionary lemmas -/

theorem dictLookup_dictInsert_self (l : List (Nat × Todo)) (k : Nat) (v : Todo) :
    dictLookup (dictInsert l k v) k = some v := by
  induction l with
  | nil => simp [dictInsert, dictLookup]
  | cons p rest ih =>
    by_cases h : p.1 = k
    · simp [dictInsert, dictLookup, h]
    · simp [dictInsert, dictLookup, h, ih]

theorem dictLookup_eq_none_iff (l : List (Nat × Todo)) (k : Nat) :
    dictLookup l k = none ↔ ∀ p ∈ l, p.1 ≠ k := by
  induction l with
  | nil => simp [dictLookup]
  | cons p rest ih =>
    by_cases h : p.1 = k <;> simp [dictLookup, h, ih]

theorem dictRemove_eq_self (l : List (Nat × Todo)) (k : Nat)
    (h : dictLookup l k = none) : dictRemove l k = l := by
  induction l with
  | nil => rfl
  | cons p rest ih =>
    by_cases hp : p.1 = k
    · simp [dictLookup, hp] at h
    · simp [dictLookup, hp] at h
      simp [dictRemove, List.filter_cons, hp]
      intro a b hab
      exact (dictLookup_eq_none_iff rest k).mp h (a, b) hab

theorem dictLookup_dictRemove_self (l : List (Nat × Todo)) (k : Nat) :
    dictLookup (dictRemove l k) k = none := by
  induction l with
  | nil => rfl
  | cons p rest ih =>
    by_cases hp : p.1 = k
    · simpa [dictRemove, List.filter_cons, hp] using ih
    · simpa [dictRemove, List.filter_cons, hp, dictLookup] using ih

theorem length_dictInsert (l : List (Nat × Todo)) (k : Nat) (v : Todo) :
    (dictInsert l k v).length
      = if dictLookup l k = none then l.length + 1 else l.length := by
  induction l with
  | nil => simp [dictInsert, dictLookup]
  | cons p rest ih =>
    by_cases h : p.1 = k
    · simp [dictInsert, dictLookup, h]
    · by_cases h2 : dictLookup rest k = none <;>
        simp [dictInsert, dictLookup, h, h2, ih]

theorem length_dictRemove (l : List (Nat × Todo)) (k : Nat) (v : Todo)
    (hnd : (l.map Prod.fst).Nodup) (h : dictLookup l k = some v) :
    (dictRemove l k).length + 1 = l.length := by
  induction l with
  | nil => simp [dictLookup] at h
  | cons p rest ih =>
    have hnd2 : p.1 ∉ List.map Prod.fst rest ∧ (List.map Prod.fst rest).Nodup := by
      rw [List.map_cons, List.nodup_cons] at hnd
      exact hnd
    by_cases hp : p.1 = k
    · have hrest : dictLookup rest k = none := by
        rw [dictLookup_eq_none_iff]
        intro q hq hqk
        exact hnd2.1 (hp ▸ hqk ▸ List.mem_map_of_mem Prod.fst hq)
      simp [dictRemove, List.filter_cons, hp]
      intro a b hab
      exact (dictLookup_eq_none_iff rest k).mp hrest (a, b) hab
    · simp [dictLookup, hp] at h
      simpa [dictRemove, List.filter_cons, hp] using ih hnd2.2 h

theorem keys_dictInsert (l : List (Nat × Todo)) (k : Nat) (v : Todo) :
    (dictInsert l k v).map Prod.fst
      = if dictLookup l k = none then l.map Prod.fst ++ [k] else l.map Prod.fst := by
  induction l with
  | nil => simp [dictInsert, dictLookup]
  | cons p rest ih =>
    by_cases h : p.1 = k
    · simp [dictInsert, dictLookup, h]
    · by_cases h2 : dictLookup rest k = none <;>
        simp [dictInsert, dictLookup, h, h2, ih]

theorem keys_nodup_dictInsert (l : List (Nat × Todo)) (k : Nat) (v : Todo)
    (h : (l.map Prod.fst).Nodup) : ((dictInsert l k v).map Prod.fst).Nodup := by
  rw [keys_dictInsert]
  by_cases h2 : dictLookup l k = none
  · rw [if_pos h2, List.nodup_append]
    refine ⟨h, List.nodup_singleton k, ?_⟩
    intro a ha hb
    rw [List.mem_singleton] at hb
    obtain ⟨p, hp, hpa⟩ := List.mem_map.mp ha
    exact (dictLookup_eq_none_iff l k).mp h2 p hp (hpa.trans hb)
  · rw [if_neg h2]
    exact h

theorem keys_nodup_dictRemove (l : List (Nat × Todo)) (k : Nat)
    (h : (l.map Prod.fst).Nodup) : ((dictRemove l k).map Prod.fst).Nodup :=
  ((List.filter_sublist l).map Prod.fst).nodup h

theorem mem_dictInsert (l : List (Nat × Todo)) (k : Nat) (v : Todo) (p : Nat × Todo)
    (h : p ∈ dictInsert l k v) : p = (k, v) ∨ p ∈ l := by
  induction l with
  | nil =>
    simp [dictInsert] at h
    exact Or.inl h
  | cons q rest ih =>
    by_cases hq : q.1 = k
    · simp [dictInsert, hq] at h
      rcases h with h | h
      · exact Or.inl h
      · exact Or.inr (List.mem_cons_of_mem q h)
    · simp [dictInsert, hq] at h
      rcases h with h | h
      · exact Or.inr (h ▸ List.mem_cons_self q rest)
      · rcases ih h with h2 | h2
        · exact Or.inl h2
        · exact Or.inr (List.mem_cons_of_mem q h2)

theorem mem_dictRemove (l : List (Nat × Todo)) (k : Nat) (p : Nat × Todo)
    (h : p ∈ dictRemove l k) : p ∈ l :=
  List.mem_of_mem_filter h

theorem dictLookup_mem (l : List (Nat × Todo)) (k : Nat) (v : Todo)
    (h : dictLookup l k = some v) : (k, v) ∈ l := by
  induction l with
  | nil => simp [dictLookup] at h
  | cons q rest ih =>
    obtain ⟨q1, q2⟩ := q
    by_cases hq : q1 = k
    · simp [dictLookup, hq] at h
      subst hq
      subst h
      exact List.mem_cons_self _ _
    · simp [dictLookup, hq] at h
      exact List.mem_cons_of_mem _ (ih h)

/-! ### Handler-level helper lemmas -/

theorem patch_eq_update (s : AppState) (todo_id : Nat) (is_json : Bool)
    (data : ReqBody) : patch_todo s todo_id is_json data = update_todo s todo_id is_json data := rfl

theorem delete_next_id (s : AppState) (todo_id : Nat) :
    ((delete_todo s todo_id).2).next_id = s.next_id := by
  cases h : dictLookup s.todos todo_id <;> simp [delete_todo, h]

theorem next_id_mono (s : AppState) (op : Op) :
    s.next_id ≤ ((stepOp s op).2).next_id := by
  cases op with
  | createOp j d =>
    cases j with
    | false => simp [stepOp, create_todo]
    | true =>
      cases hd : d.title with
      | none => simp [stepOp, create_todo, hd]
      | some ttl => simp [stepOp, create_todo, hd, utcnow]
  | updateOp i j d =>
    cases hl : dictLookup s.todos i with
    | none => simp [stepOp, update_todo, hl]
    | some old =>
      cases j with
      | false => simp [stepOp, update_todo, hl]
      | true => simp [stepOp, update_todo, hl, utcnow]
  | patchOp i j d =>
    cases hl : dictLookup s.todos i with
    | none => simp [stepOp, patch_todo, hl]
    | some old =>
      cases j with
      | false => simp [stepOp, patch_todo, hl]
      | true => simp [stepOp, patch_todo, hl, utcnow]
  | getOp i =>
    cases hl : dictLookup s.todos i <;> simp [stepOp, get_todo, hl]
  | listOp => simp [stepOp, get_todos]
  | deleteOp i =>
    cases hl : dictLookup s.todos i <;> simp [stepOp, delete_todo, hl]

theorem step_created (s : AppState) (op : Op) (t : Todo)
    (h : (stepOp s op).1 = (201, RespBody.todoItem t)) :
    t.id = s.next_id ∧ ((stepOp s op).2).next_id = s.next_id + 1 := by
  cases op with
  | createOp j d =>
    cases j with
    | false => simp [stepOp, create_todo] at h
    | true =>
      cases hd : d.title with
      | none => simp [stepOp, create_todo, hd] at h
      | some ttl =>
        simp [stepOp, create_todo, hd, utcnow] at h
        constructor
        · rw [← h]
        · simp [stepOp, create_todo, hd, utcnow]
  | updateOp i j d =>
    cases hl : dictLookup s.todos i with
    | none => simp [stepOp, update_todo, hl] at h
    | some old =>
      cases j with
      | false => simp [stepOp, update_todo, hl] at h
      | true => simp [stepOp, update_todo, hl, utcnow] at h
  | patchOp i j d =>
    cases hl : dictLookup s.todos i with
    | none => simp [stepOp, patch_todo, hl] at h
    | some old =>
      cases j with
      | false => simp [stepOp, patch_todo, hl] at h
      | true => simp [stepOp, patch_todo, hl, utcnow] at h
  | getOp i =>
    cases hl : dictLookup s.todos i <;> simp [stepOp, get_todo, hl] at h
  | listOp => simp [stepOp, get_todos] at h
  | deleteOp i =>
    cases hl : dictLookup s.todos i <;> simp [stepOp, delete_todo, hl] at h

theorem mem_createdIdOf (r : Nat × RespBody) (i : Nat) (h : i ∈ createdIdOf r) :
    r.1 = 201 ∧ ∃ t, r.2 = RespBody.todoItem t ∧ i = t.id := by
  obtain ⟨c, b⟩ := r
  by_cases hc : c = 201
  · subst hc
    cases b with
    | todoItem t =>
      simp [createdIdOf] at h
      exact ⟨rfl, t, rfl, h⟩
    | err m => simp [createdIdOf] at h
    | todoList ts n => simp [createdIdOf] at h
    | deleted m t => simp [createdIdOf] at h
  · simp [createdIdOf, hc] at h

theorem createdIdOf_short (r : Nat × RespBody) :
    createdIdOf r = [] ∨ ∃ x, createdIdOf r = [x] := by
  obtain ⟨c, b⟩ := r
  by_cases hc : c = 201
  · subst hc
    cases b with
    | todoItem t => exact Or.inr ⟨t.id, by simp [createdIdOf]⟩
    | err m => exact Or.inl (by simp [createdIdOf])
    | todoList ts n => exact Or.inl (by simp [createdIdOf])
    | deleted m t => exact Or.inl (by simp [createdIdOf])
  · exact Or.inl (by simp [createdIdOf, hc])

theorem createdIds_lb : ∀ (ops : List Op) (s : AppState) (i : Nat),
    i ∈ createdIds s ops → s.next_id ≤ i := by
  intro ops
  induction ops with
  | nil =>
    intro s i h
    simp [createdIds] at h
  | cons op rest ih =>
    intro s i h
    rw [createdIds] at h
    rcases List.mem_append.mp h with h1 | h2
    · obtain ⟨hc, t, hb, rfl⟩ := mem_createdIdOf _ i h1
      have hpair : (stepOp s op).1 = (201, RespBody.todoItem t) := by
        rw [← hc, ← hb]
      exact (step_created s op t hpair).1.ge
    · exact le_trans (next_id_mono s op) (ih _ i h2)

theorem createdIds_pairwise : ∀ (ops : List Op) (s : AppState),
    List.Pairwise (· < ·) (createdIds s ops) := by
  intro ops
  induction ops with
  | nil =>
    intro s
    simp [createdIds]
  | cons op rest ih =>
    intro s
    rw [createdIds]
    rw [List.pairwise_append]
    refine ⟨?_, ih _, ?_⟩
    · rcases createdIdOf_short (stepOp s op).1 with h | ⟨x, h⟩ <;> simp [h]
    · intro a ha b hb
      obtain ⟨hc, t, hbody, rfl⟩ := mem_createdIdOf _ a ha
      have hpair : (stepOp s op).1 = (201, RespBody.todoItem t) := by
        rw [← hc, ← hbody]
      obtain ⟨hid, hnext⟩ := step_created s op t hpair
      have hb2 := createdIds_lb rest _ b hb
      omega

/-- **C3**: across every sequence of store operations starting at process
start, the IDs handed out by successful creates are strictly increasing
(hence an ID, once assigned, is never assigned again, even after a
delete); the delete handler leaves the ID counter untouched, and no
handler ever decreases it. -/
theorem created_ids_strictly_increasing (clock : Nat → Nat) (ops : List Op) :
    List.Pairwise (· < ·) (createdIds (initState clock) ops)
    ∧ (∀ s todo_id, ((delete_todo s todo_id).2).next_id = s.next_id)
    ∧ ∀ s op, s.next_id ≤ ((stepOp s op).2).next_id :=
  ⟨createdIds_pairwise ops (initState clock), delete_next_id, next_id_mono⟩

/-- **C5**: for every store state, todo ID, content type and request body,
the PUT handler and the PATCH handler return the same status and body and
produce the same resulting state. -/
theorem put_patch_equivalent (s : AppState) (todo_id : Nat) (is_json : Bool)
    (data : ReqBody) :
    update_todo s todo_id is_json data = patch_todo s todo_id is_json data := rfl

/-- **C1 (amended)**: a JSON POST whose body lacks the `title` key fails
with 400, a descriptive error body, and an unchanged store; a body whose
`title` key is present — even bound to the empty string — creates the
todo: it gets ID `next_id`, the given title, the defaulted optional
fields, is stored under that ID, and the counter moves to `next_id + 1`
with a 201 response. -/
theorem create_validation (s : AppState) (data : ReqBody) :
    (data.title = none →
      (create_todo s true data).1 = (400, RespBody.err "Missing required field: title")
      ∧ (create_todo s true data).2 = s)
    ∧ ∀ ttl, data.title = some ttl →
      ∃ t : Todo,
        (create_todo s true data).1 = (201, RespBody.todoItem t)
        ∧ t.id = s.next_id
        ∧ t.title = ttl
        ∧ t.description = data.description.getD ""
        ∧ t.completed = data.completed.getD false
        ∧ dictLookup ((create_todo s true data).2).todos s.next_id = some t
        ∧ ((create_todo s true data).2).next_id = s.next_id + 1 := by
  constructor
  · intro h
    constructor <;> simp [create_todo, h]
  · intro ttl h
    refine ⟨⟨s.next_id, ttl, data.description.getD "", data.completed.getD false,
      s.clock s.tick, s.clock (s.tick + 1)⟩, ?_, rfl, rfl, rfl, rfl, ?_, ?_⟩
    · simp [create_todo, h, utcnow]
    · simp [create_todo, h, utcnow, dictLookup_dictInsert_self]
    · simp [create_todo, h, utcnow]

/-- Witness for C1: on the empty store, a JSON POST with body `{}` gets
400 with the missing-title error and leaves the store empty, and a JSON
POST with title `"a"` gets 201 and stores the record under ID 1. -/
theorem create_validation_witness :
    ((create_todo (initState fun x => x) true ⟨none, none, none⟩).1
        = (400, RespBody.err "Missing required field: title")
      ∧ (create_todo (initState fun x => x) true ⟨none, none, none⟩).2
        = initState (fun x => x))
    ∧ ∃ t : Todo,
        (create_todo (initState fun x => x) true ⟨some "a", none, none⟩).1
          = (201, RespBody.todoItem t)
        ∧ t.id = (initState fun x => x).next_id
        ∧ t.title = "a"
        ∧ t.description = ""
        ∧ t.completed = false
        ∧ dictLookup ((create_todo (initState fun x => x) true
            ⟨some "a", none, none⟩).2).todos (initState fun x => x).next_id = some t
        ∧ ((create_todo (initState fun x => x) true ⟨some "a", none, none⟩).2).next_id
          = (initState fun x => x).next_id + 1 :=
  ⟨(create_validation (initState fun x => x) ⟨none, none, none⟩).1 rfl,
   (create_validation (initState fun x => x) ⟨some "a", none, none⟩).2 "a" rfl⟩

/-- Counterexample to C1 as stated: the claim requires a JSON POST with an
empty `title` to fail with 400 and create nothing, but the handler only
tests key presence (`'title' not in data`), so `{"title": ""}` is
accepted: 201, and the record lands in the store. -/
theorem create_empty_title_accepted :
    ((create_todo (initState fun x => x) true ⟨some "", none, none⟩).1).1 = 201
    ∧ ((create_todo (initState fun x => x) true ⟨some "", none, none⟩).2).todos
        = [(1, ⟨1, "", "", false, 0, 1⟩)] :=
  ⟨rfl, rfl⟩

/-- **C2 (amended)**: any record returned by a successful create satisfies
`created_at ≤ updated_at` whenever the clock does not run backwards
between the two `utcnow()` reads the handler performs; the two fields are
equal exactly when those two reads coincide, which the code does not
force. -/
theorem create_created_le_updated (s : AppState) (is_json : Bool) (data : ReqBody)
    (t : Todo) (hc : s.clock s.tick ≤ s.clock (s.tick + 1))
    (h : (create_todo s is_json data).1 = (201, RespBody.todoItem t)) :
    t.created_at ≤ t.updated_at := by
  cases is_json with
  | false => simp [create_todo] at h
  | true =>
    cases hd : data.title with
    | none => simp [create_todo, hd] at h
    | some ttl =>
      simp [create_todo, hd, utcnow] at h
      rw [← h]
      exact hc

/-- Witness for C2 (amended): a concrete successful create under a
constant clock, whose record indeed has `created_at ≤ updated_at`. -/
theorem create_created_le_updated_witness :
    ((initState fun _ => 5).clock (initState fun _ => 5).tick
        ≤ (initState fun _ => 5).clock ((initState fun _ => 5).tick + 1))
    ∧ (create_todo (initState fun _ => 5) true ⟨some "t", none, none⟩).1
        = (201, RespBody.todoItem ⟨1, "t", "", false, 5, 5⟩)
    ∧ (⟨1, "t", "", false, 5, 5⟩ : Todo).created_at
        ≤ (⟨1, "t", "", false, 5, 5⟩ : Todo).updated_at :=
  ⟨Nat.le_refl 5, rfl,
   create_created_le_updated (initState fun _ => 5) true ⟨some "t", none, none⟩
     ⟨1, "t", "", false, 5, 5⟩ (Nat.le_refl 5) rfl⟩

/-- Counterexample to C2 as stated: the handler stamps `created_at` and
`updated_at` with two separate `utcnow()` calls (`app.py` lines 178-179),
so under a clock that advances between the reads a successful create
returns a record with `created_at ≠ updated_at`. -/
theorem create_timestamps_differ :
    (create_todo (initState fun x => x) true ⟨some "t", none, none⟩).1
      = (201, RespBody.todoItem ⟨1, "t", "", false, 0, 1⟩)
    ∧ (⟨1, "t", "", false, 0, 1⟩ : Todo).created_at
        ≠ (⟨1, "t", "", false, 0, 1⟩ : Todo).updated_at :=
  ⟨rfl, by decide⟩

/-- **C7**: for every ID absent from the store, GET returns 404 with
exactly the body `{"error": "Todo with id {id} not found"}` and leaves
the state untouched. -/
theorem get_not_found (s : AppState) (todo_id : Nat)
    (h : dictLookup s.todos todo_id = none) :
    (get_todo s todo_id).1
      = (404, RespBody.err ("Todo with id " ++ toString todo_id ++ " not found"))
    ∧ (get_todo s todo_id).2 = s := by
  constructor <;> simp [get_todo, h]

/-- Witness for C7: GET `/todos/999` on the empty store is 404 with the
interpolated message. -/
theorem get_not_found_witness :
    dictLookup (initState fun x => x).todos 999 = none
    ∧ (get_todo (initState fun x => x) 999).1
        = (404, RespBody.err "Todo with id 999 not found") :=
  ⟨rfl, (get_not_found (initState fun x => x) 999 rfl).1⟩

/-- **C8**: DELETE of an absent ID is 404 with the not-found body and an
unchanged store; DELETE of a present ID answers 200 with a message plus
the removed record, the binding is gone from the mapping, and a
subsequent GET of the same ID is 404. -/
theorem delete_spec (s : AppState) (todo_id : Nat) :
    (dictLookup s.todos todo_id = none →
      (delete_todo s todo_id).1
        = (404, RespBody.err ("Todo with id " ++ toString todo_id ++ " not found"))
      ∧ (delete_todo s todo_id).2 = s)
    ∧ ∀ t, dictLookup s.todos todo_id = some t →
      (delete_todo s todo_id).1 = (200, RespBody.deleted "Todo deleted successfully" t)
      ∧ dictLookup ((delete_todo s todo_id).2).todos todo_id = none
      ∧ (get_todo ((delete_todo s todo_id).2) todo_id).1
          = (404, RespBody.err ("Todo with id " ++ toString todo_id ++ " not found")) := by
  constructor
  · intro h
    constructor <;> simp [delete_todo, h]
  · intro t h
    refine ⟨by simp [delete_todo, h], ?_, ?_⟩
    · simp [delete_todo, h, dictLookup_dictRemove_self]
    · simp [get_todo, delete_todo, h, dictLookup_dictRemove_self]

/-- Witness for C8: deleting ID 1 from a one-element store returns the
record with 200, and GET `/todos/1` afterwards is 404. -/
theorem delete_spec_witness :
    dictLookup ([(1, ⟨1, "a", "", false, 0, 1⟩)] : List (Nat × Todo)) 1
      = some ⟨1, "a", "", false, 0, 1⟩
    ∧ (delete_todo ⟨[(1, ⟨1, "a", "", false, 0, 1⟩)], 2, fun x => x, 2⟩ 1).1
        = (200, RespBody.deleted "Todo deleted successfully" ⟨1, "a", "", false, 0, 1⟩)
    ∧ (get_todo ((delete_todo ⟨[(1, ⟨1, "a", "", false, 0, 1⟩)], 2, fun x => x, 2⟩ 1).2) 1).1
        = (404, RespBody.err "Todo with id 1 not found") :=
  ⟨rfl,
   ((delete_spec ⟨[(1, ⟨1, "a", "", false, 0, 1⟩)], 2, fun x => x, 2⟩ 1).2
      ⟨1, "a", "", false, 0, 1⟩ rfl).1,
   ((delete_spec ⟨[(1, ⟨1, "a", "", false, 0, 1⟩)], 2, fun x => x, 2⟩ 1).2
      ⟨1, "a", "", false, 0, 1⟩ rfl).2.2⟩

/-- **C9**: PUT and PATCH test existence before content type: an absent ID
draws 404 whatever the content type; POST tests content type before body
validation: a non-JSON POST draws the content-type 400 for every body,
including one without a title. -/
theorem notfound_precedes_content_type (s : AppState) (todo_id : Nat)
    (is_json : Bool) (data : ReqBody)
    (h : dictLookup s.todos todo_id = none) :
    (update_todo s todo_id is_json data).1
      = (404, RespBody.err ("Todo with id " ++ toString todo_id ++ " not found"))
    ∧ (patch_todo s todo_id is_json data).1
      = (404, RespBody.err ("Todo with id " ++ toString todo_id ++ " not found"))
    ∧ (create_todo s false data).1
      = (400, RespBody.err "Content-Type must be application/json") := by
  refine ⟨?_, ?_, rfl⟩ <;> simp [update_todo, patch_todo, h]

/-- Witness for C9: on the empty store, a non-JSON PUT to ID 7 is 404
(not a content-type error), and a non-JSON POST with a title-less body is
the content-type 400 (not the missing-title 400). -/
theorem notfound_precedes_content_type_witness :
    dictLookup (initState fun x => x).todos 7 = none
    ∧ (update_todo (initState fun x => x) 7 false ⟨none, none, none⟩).1
        = (404, RespBody.err "Todo with id 7 not found")
    ∧ (create_todo (initState fun x => x) false ⟨none, none, none⟩).1
        = (400, RespBody.err "Content-Type must be application/json") :=
  ⟨rfl,
   (notfound_precedes_content_type (initState fun x => x) 7 false ⟨none, none, none⟩ rfl).1,
   (notfound_precedes_content_type (initState fun x => x) 7 false ⟨none, none, none⟩ rfl).2.2⟩

/-- **C10**: every error response (404 from GET/PUT/PATCH/DELETE, 400 from
POST/PUT/PATCH) leaves the whole state — the todos mapping, the `next_id`
counter, and the clock position — exactly as it was; in particular a
failed create consumes no ID. -/
theorem error_responses_preserve_state (s : AppState) (todo_id : Nat)
    (is_json : Bool) (data : ReqBody) :
    ((get_todo s todo_id).1.1 = 404 → (get_todo s todo_id).2 = s)
    ∧ (((update_todo s todo_id is_json data).1.1 = 404
        ∨ (update_todo s todo_id is_json data).1.1 = 400) →
        (update_todo s todo_id is_json data).2 = s)
    ∧ (((patch_todo s todo_id is_json data).1.1 = 404
        ∨ (patch_todo s todo_id is_json data).1.1 = 400) →
        (patch_todo s todo_id is_json data).2 = s)
    ∧ ((create_todo s is_json data).1.1 = 400 → (create_todo s is_json data).2 = s)
    ∧ ((delete_todo s todo_id).1.1 = 404 → (delete_todo s todo_id).2 = s) := by
  refine ⟨?_, ?_, ?_, ?_, ?_⟩
  · intro _
    cases h : dictLookup s.todos todo_id <;> simp [get_todo, h]
  · cases h : dictLookup s.todos todo_id with
    | none => intro _; simp [update_todo, h]
    | some old =>
      cases is_json with
      | false => intro _; simp [update_todo, h]
      | true =>
        intro hc
        simp [update_todo, h, utcnow] at hc
  · cases h : dictLookup s.todos todo_id with
    | none => intro _; simp [patch_todo, h]
    | some old =>
      cases is_json with
      | false => intro _; simp [patch_todo, h]
      | true =>
        intro hc
        simp [patch_todo, h, utcnow] at hc
  · cases is_json with
    | false => intro _; rfl
    | true =>
      cases hd : data.title with
      | none => intro _; simp [create_todo, hd]
      | some ttl =>
        intro hc
        simp [create_todo, hd, utcnow] at hc
  · cases h : dictLookup s.todos todo_id with
    | none => intro _; simp [delete_todo, h]
    | some t =>
      intro hc
      simp [delete_todo, h] at hc

/-- Witness for C10: a title-less JSON POST on the empty store answers 400
and leaves the state — including `next_id` — untouched. -/
theorem error_responses_preserve_state_witness :
    (create_todo (initState fun x => x) true ⟨none, none, none⟩).1.1 = 400
    ∧ (create_todo (initState fun x => x) true ⟨none, none, none⟩).2
        = initState (fun x => x) :=
  ⟨rfl,
   (error_responses_preserve_state (initState fun x => x) 3 true
      ⟨none, none, none⟩).2.2.2.1 rfl⟩

/-- **C4**: a PUT or PATCH on an existing todo overwrites exactly the
fields whose keys are present in the body, keeps `id` and `created_at`,
stamps `updated_at` from the clock, and — provided the stored
`updated_at` does not lie in the clock's future — never decreases
`updated_at`; with the empty body `{}` every field except `updated_at` is
unchanged. -/
theorem update_merge_frame (s : AppState) (todo_id : Nat) (data : ReqBody)
    (old : Todo) (hold : dictLookup s.todos todo_id = some old)
    (hts : old.updated_at ≤ s.clock s.tick) :
    ∃ upd : Todo,
      (update_todo s todo_id true data).1 = (200, RespBody.todoItem upd)
      ∧ (patch_todo s todo_id true data).1 = (200, RespBody.todoItem upd)
      ∧ dictLookup ((update_todo s todo_id true data).2).todos todo_id = some upd
      ∧ dictLookup ((patch_todo s todo_id true data).2).todos todo_id = some upd
      ∧ upd.id = old.id
      ∧ upd.created_at = old.created_at
      ∧ upd.title = data.title.getD old.title
      ∧ upd.description = data.description.getD old.description
      ∧ upd.completed = data.completed.getD old.completed
      ∧ upd.updated_at = s.clock s.tick
      ∧ old.updated_at ≤ upd.updated_at
      ∧ (data = ⟨none, none, none⟩ →
          upd.title = old.title ∧ upd.description = old.description
          ∧ upd.completed = old.completed) := by
  refine ⟨{ old with
      title := data.title.getD old.title
      description := data.description.getD old.description
      completed := data.completed.getD old.completed
      updated_at := s.clock s.tick }, ?_, ?_, ?_, ?_, rfl, rfl, rfl, rfl, rfl, rfl, hts, ?_⟩
  · simp [update_todo, hold, utcnow]
  · simp [patch_todo, hold, utcnow]
  · simp [update_todo, hold, utcnow, dictLookup_dictInsert_self]
  · simp [patch_todo, hold, utcnow, dictLookup_dictInsert_self]
  · intro hd
    subst hd
    exact ⟨rfl, rfl, rfl⟩

/-- Witness for C4: a PATCH-style body touching only `description` on a
concrete one-element store keeps `id`, `created_at`, `title` and
`completed`, and moves `updated_at` forward. -/
theorem update_merge_frame_witness :
    dictLookup (⟨[(1, ⟨1, "a", "b", false, 0, 1⟩)], 2, fun x => x, 2⟩ : AppState).todos 1
      = some ⟨1, "a", "b", false, 0, 1⟩
    ∧ (⟨1, "a", "b", false, 0, 1⟩ : Todo).updated_at
        ≤ (⟨[(1, ⟨1, "a", "b", false, 0, 1⟩)], 2, fun x => x, 2⟩ : AppState).clock
            (⟨[(1, ⟨1, "a", "b", false, 0, 1⟩)], 2, fun x => x, 2⟩ : AppState).tick
    ∧ ∃ upd : Todo,
        (update_todo ⟨[(1, ⟨1, "a", "b", false, 0, 1⟩)], 2, fun x => x, 2⟩ 1 true
            ⟨none, some "c", none⟩).1 = (200, RespBody.todoItem upd)
        ∧ (patch_todo ⟨[(1, ⟨1, "a", "b", false, 0, 1⟩)], 2, fun x => x, 2⟩ 1 true
            ⟨none, some "c", none⟩).1 = (200, RespBody.todoItem upd)
        ∧ dictLookup ((update_todo ⟨[(1, ⟨1, "a", "b", false, 0, 1⟩)], 2, fun x => x, 2⟩
            1 true ⟨none, some "c", none⟩).2).todos 1 = some upd
        ∧ dictLookup ((patch_todo ⟨[(1, ⟨1, "a", "b", false, 0, 1⟩)], 2, fun x => x, 2⟩
            1 true ⟨none, some "c", none⟩).2).todos 1 = some upd
        ∧ upd.id = (⟨1, "a", "b", false, 0, 1⟩ : Todo).id
        ∧ upd.created_at = (⟨1, "a", "b", false, 0, 1⟩ : Todo).created_at
        ∧ upd.title = (Option.getD none (⟨1, "a", "b", false, 0, 1⟩ : Todo).title)
        ∧ upd.description = (Option.getD (some "c") (⟨1, "a", "b", false, 0, 1⟩ : Todo).description)
        ∧ upd.completed = (Option.getD none (⟨1, "a", "b", false, 0, 1⟩ : Todo).completed)
        ∧ upd.updated_at = (⟨[(1, ⟨1, "a", "b", false, 0, 1⟩)], 2, fun x => x, 2⟩ : AppState).clock
            (⟨[(1, ⟨1, "a", "b", false, 0, 1⟩)], 2, fun x => x, 2⟩ : AppState).tick
        ∧ (⟨1, "a", "b", false, 0, 1⟩ : Todo).updated_at ≤ upd.updated_at
        ∧ ((⟨none, some "c", none⟩ : ReqBody) = ⟨none, none, none⟩ →
            upd.title = (⟨1, "a", "b", false, 0, 1⟩ : Todo).title
            ∧ upd.description = (⟨1, "a", "b", false, 0, 1⟩ : Todo).description
            ∧ upd.completed = (⟨1, "a", "b", false, 0, 1⟩ : Todo).completed) :=
  ⟨rfl, by decide,
   update_merge_frame ⟨[(1, ⟨1, "a", "b", false, 0, 1⟩)], 2, fun x => x, 2⟩ 1
     ⟨none, some "c", none⟩ ⟨1, "a", "b", false, 0, 1⟩ rfl (by decide)⟩

/-! ### Count accounting for C6 -/

/-- States a genuine Python dict can be in: every stored key was assigned
below the counter, and keys are unique. -/
def StoreInv (s : AppState) : Prop :=
  (∀ p ∈ s.todos, p.1 < s.next_id) ∧ (s.todos.map Prod.fst).Nodup

theorem storeInv_init (clock : Nat → Nat) : StoreInv (initState clock) := by
  constructor
  · intro p hp
    simp [initState] at hp
  · simp [initState]

theorem storeInv_of_eq (s s2 : AppState) (h : s2 = s) (hinv : StoreInv s) :
    StoreInv s2 := h ▸ hinv

theorem step_accounting (s : AppState) (op : Op) (hinv : StoreInv s) :
    StoreInv (stepOp s op).2
    ∧ ((stepOp s op).2).todos.length + deletedCountOf (stepOp s op).1
      = s.todos.length + (if (stepOp s op).1.1 = 201 then 1 else 0) := by
  obtain ⟨hbound, hnd⟩ := hinv
  cases op with
  | createOp j d =>
    cases j with
    | false =>
      have hs : (stepOp s (Op.createOp false d)).2 = s := by
        simp [stepOp, create_todo]
      refine ⟨?_, ?_⟩
      · rw [hs]
        exact ⟨hbound, hnd⟩
      · simp [stepOp, create_todo, deletedCountOf]
    | true =>
      cases hd : d.title with
      | none =>
        have hs : (stepOp s (Op.createOp true d)).2 = s := by
          simp [stepOp, create_todo, hd]
        refine ⟨?_, ?_⟩
        · rw [hs]
          exact ⟨hbound, hnd⟩
        · simp [stepOp, create_todo, hd, deletedCountOf]
      | some ttl =>
        have hfresh : dictLookup s.todos s.next_id = none := by
          rw [dictLookup_eq_none_iff]
          intro p hp
          exact Nat.ne_of_lt (hbound p hp)
        refine ⟨⟨?_, ?_⟩, ?_⟩
        · intro p hp
          simp only [stepOp, create_todo, hd, utcnow] at hp ⊢
          rcases mem_dictInsert _ _ _ p hp with h | h
          · simp [h]
          · have := hbound p h
            show p.1 < s.next_id + 1
            omega
        · simp only [stepOp, create_todo, hd, utcnow]
          exact keys_nodup_dictInsert _ _ _ hnd
        · simp [stepOp, create_todo, hd, utcnow, deletedCountOf,
            length_dictInsert, hfresh]
  | updateOp i j d =>
    cases hl : dictLookup s.todos i with
    | none =>
      have hs : (stepOp s (Op.updateOp i j d)).2 = s := by
        simp [stepOp, update_todo, hl]
      refine ⟨?_, ?_⟩
      · rw [hs]
        exact ⟨hbound, hnd⟩
      · simp [stepOp, update_todo, hl, deletedCountOf]
    | some old =>
      cases j with
      | false =>
        have hs : (stepOp s (Op.updateOp i false d)).2 = s := by
          simp [stepOp, update_todo, hl]
        refine ⟨?_, ?_⟩
        · rw [hs]
          exact ⟨hbound, hnd⟩
        · simp [stepOp, update_todo, hl, deletedCountOf]
      | true =>
        refine ⟨⟨?_, ?_⟩, ?_⟩
        · intro p hp
          simp only [stepOp, update_todo, hl, utcnow] at hp ⊢
          rcases mem_dictInsert _ _ _ p hp with h | h
          · have hi : i < s.next_id := hbound (i, old) (dictLookup_mem s.todos i old hl)
            simp [h]
            exact hi
          · exact hbound p h
        · simp only [stepOp, update_todo, hl, utcnow]
          exact keys_nodup_dictInsert _ _ _ hnd
        · simp [stepOp, update_todo, hl, utcnow, deletedCountOf,
            length_dictInsert]
  | patchOp i j d =>
    cases hl : dictLookup s.todos i with
    | none =>
      have hs : (stepOp s (Op.patchOp i j d)).2 = s := by
        simp [stepOp, patch_todo, hl]
      refine ⟨?_, ?_⟩
      · rw [hs]
        exact ⟨hbound, hnd⟩
      · simp [stepOp, patch_todo, hl, deletedCountOf]
    | some old =>
      cases j with
      | false =>
        have hs : (stepOp s (Op.patchOp i false d)).2 = s := by
          simp [stepOp, patch_todo, hl]
        refine ⟨?_, ?_⟩
        · rw [hs]
          exact ⟨hbound, hnd⟩
        · simp [stepOp, patch_todo, hl, deletedCountOf]
      | true =>
        refine ⟨⟨?_, ?_⟩, ?_⟩
        · intro p hp
          simp only [stepOp, patch_todo, hl, utcnow] at hp ⊢
          rcases mem_dictInsert _ _ _ p hp with h | h
          · have hi : i < s.next_id := hbound (i, old) (dictLookup_mem s.todos i old hl)
            simp [h]
            exact hi
          · exact hbound p h
        · simp only [stepOp, patch_todo, hl, utcnow]
          exact keys_nodup_dictInsert _ _ _ hnd
        · simp [stepOp, patch_todo, hl, utcnow, deletedCountOf,
            length_dictInsert]
  | getOp i =>
    cases hl : dictLookup s.todos i with
    | none =>
      have hs : (stepOp s (Op.getOp i)).2 = s := by
        simp [stepOp, get_todo, hl]
      refine ⟨?_, ?_⟩
      · rw [hs]
        exact ⟨hbound, hnd⟩
      · simp [stepOp, get_todo, hl, deletedCountOf]
    | some t =>
      have hs : (stepOp s (Op.getOp i)).2 = s := by
        simp [stepOp, get_todo, hl]
      refine ⟨?_, ?_⟩
      · rw [hs]
        exact ⟨hbound, hnd⟩
      · simp [stepOp, get_todo, hl, deletedCountOf]
  | listOp =>
    have hs : (stepOp s Op.listOp).2 = s := by
      simp [stepOp, get_todos]
    refine ⟨?_, ?_⟩
    · rw [hs]
      exact ⟨hbound, hnd⟩
    · simp [stepOp, get_todos, deletedCountOf]
  | deleteOp i =>
    cases hl : dictLookup s.todos i with
    | none =>
      have hs : (stepOp s (Op.deleteOp i)).2 = s := by
        simp [stepOp, delete_todo, hl]
      refine ⟨?_, ?_⟩
      · rw [hs]
        exact ⟨hbound, hnd⟩
      · simp [stepOp, delete_todo, hl, deletedCountOf]
    | some t =>
      refine ⟨⟨?_, ?_⟩, ?_⟩
      · intro p hp
        simp only [stepOp, delete_todo, hl] at hp ⊢
        exact hbound p (mem_dictRemove _ _ _ hp)
      · simp only [stepOp, delete_todo, hl]
        exact keys_nodup_dictRemove _ _ hnd
      · have hlen := length_dictRemove s.todos i t hnd hl
        simp [stepOp, delete_todo, hl, deletedCountOf]
        omega

theorem run_accounting : ∀ (ops : List Op) (s : AppState), StoreInv s →
    (runOps s ops).todos.length + opsDeletes s ops
      = s.todos.length + opsCreates s ops := by
  intro ops
  induction ops with
  | nil =>
    intro s _
    simp [runOps, opsDeletes, opsCreates]
  | cons op rest ih =>
    intro s hinv
    obtain ⟨hinv2, hstep⟩ := step_accounting s op hinv
    have hrest := ih (stepOp s op).2 hinv2
    rw [runOps, opsDeletes, opsCreates]
    omega

/-- **C6**: after any sequence of requests starting from the empty store,
the number of successful deletes never exceeds the number of successful
creates, and `GET /todos` answers 200 with the stored records and a count
equal to successful creates minus successful deletes. -/
theorem list_count_eq (clock : Nat → Nat) (ops : List Op) :
    opsDeletes (initState clock) ops ≤ opsCreates (initState clock) ops
    ∧ (get_todos (runOps (initState clock) ops)).1
      = (200, RespBody.todoList ((runOps (initState clock) ops).todos.map Prod.snd)
          (opsCreates (initState clock) ops - opsDeletes (initState clock) ops)) := by
  have h := run_accounting ops (initState clock) (storeInv_init clock)
  have h0 : (initState clock).todos.length = 0 := rfl
  constructor
  · omega
  · have hcount : ((runOps (initState clock) ops).todos.map Prod.snd).length
        = opsCreates (initState clock) ops - opsDeletes (initState clock) ops := by
      rw [List.length_map]
      omega
    simp [get_todos, hcount]

end TodoApi
